import Mathlib

/-!
Verification of the TMC4361A motion-controller driver
(firmware/octopi_firmware_v2/main_controller_teensy41/TMC4361A.h).

The header declares the driver interface and three static per-register tables
(default reset state, default access class, hardware-preset constants); the
behavioural code lives in a companion implementation file that is not part of
this source tree.  The tables below are transcribed literally from the header;
the operational definitions are modelled from the design document and are
marked as such in their doc comments.
-/

namespace TMC4361A

/-- Number of addressable registers (`TMC4361A_REGISTER_COUNT`). -/
def TMC4361A_REGISTER_COUNT : Nat := 128

/-- Default value `R10` for register 0x10 (STP_LENGTH_ADD), from the header. -/
def R10 : Int := 0x00040001

/-- Default value `R20` for register 0x20 (RAMPMODE), from the header. -/
def R20 : Int := 0x00000001

/-- Table `tmc4361A_defaultRegisterResetState`, transcribed from the header.
The `N_A` sentinel ("not applicable") is represented as `none`. -/
def tmc4361A_defaultRegisterResetState : List (Option Int) :=
  -- 0x00 - 0x0F
  [none, some 0, some 0, some 0, some 0, some 0, none, none,
   some 0, some 0, none, none, some 0, some 0, some 0, some 0,
  -- 0x10 - 0x1F
   some R10, some 0, none, some 0, some 0, some 0, some 0, some 0,
   some 0, some 0, some 0, some 0, none, some 0, some 0, none,
  -- 0x20 - 0x2F
   some R20, some 0, some 0, some 0, some 0, some 0, some 0, some 0,
   some 0, some 0, some 0, some 0, some 0, some 0, some 0, some 0,
  -- 0x30 - 0x3F
   some 0, none, some 0, some 0, some 0, some 0, some 0, some 0,
   some 0, some 0, some 0, some 0, some 0, some 0, some 0, some 0,
  -- 0x40 - 0x4F
   some 0, some 0, some 0, some 0, some 0, some 0, some 0, some 0,
   some 0, some 0, some 0, some 0, some 0, some 0, some 0, some 0,
  -- 0x50 - 0x5F
   some 0, some 0, some 0, none, some 0, some 0, none, none,
   none, some 0, some 0, some 0, some 0, some 0, some 0, some 0,
  -- 0x60 - 0x6F
   some 0, some 0, none, some 0, some 0, some 0, some 0, some 0,
   some 0, some 0, some 0, some 0, some 0, some 0, some 0, some 0,
  -- 0x70 - 0x7F
   none, none, none, none, none, none, none, none,
   none, some 0, some 0, none, none, some 0, none, some 0]

/-- Table `tmc4361A_defaultRegisterAccess`, transcribed from the header.
Access-class bytes: 0x01 read, 0x02 write, 0x03 read/write, 0x13 read/write
with separate read and write values, 0x23 read/write clearing flags, 0x42
write with hardware preset on reset, 0x43 read/write with hardware preset.
The `____` placeholder of the header (a reserved slot) is the byte 0x00. -/
def tmc4361A_defaultRegisterAccess : List Nat :=
  -- 0x00 - 0x0F
  [0x43, 0x03, 0x03, 0x03, 0x03, 0x03, 0x43, 0x43,
   0x03, 0x03, 0x43, 0x43, 0x03, 0x03, 0x23, 0x01,
  -- 0x10 - 0x1F
   0x03, 0x03, 0x43, 0x03, 0x03, 0x03, 0x03, 0x03,
   0x03, 0x03, 0x03, 0x03, 0x43, 0x03, 0x03, 0x43,
  -- 0x20 - 0x2F
   0x03, 0x03, 0x01, 0x01, 0x03, 0x03, 0x03, 0x03,
   0x03, 0x03, 0x03, 0x03, 0x03, 0x03, 0x03, 0x03,
  -- 0x30 - 0x3F
   0x03, 0x43, 0x03, 0x03, 0x03, 0x03, 0x13, 0x03,
   0x03, 0x03, 0x03, 0x03, 0x03, 0x03, 0x03, 0x03,
  -- 0x40 - 0x4F
   0x03, 0x03, 0x03, 0x03, 0x03, 0x03, 0x03, 0x03,
   0x03, 0x03, 0x03, 0x03, 0x03, 0x03, 0x03, 0x03,
  -- 0x50 - 0x5F
   0x03, 0x13, 0x13, 0x42, 0x13, 0x02, 0x42, 0x42,
   0x42, 0x03, 0x13, 0x13, 0x02, 0x13, 0x02, 0x02,
  -- 0x60 - 0x6F
   0x02, 0x02, 0x42, 0x02, 0x00, 0x01, 0x01, 0x02,
   0x02, 0x02, 0x01, 0x01, 0x13, 0x13, 0x01, 0x01,
  -- 0x70 - 0x7F
   0x42, 0x42, 0x42, 0x42, 0x42, 0x42, 0x42, 0x42,
   0x42, 0x13, 0x01, 0x13, 0x13, 0x02, 0x42, 0x01]

/-- One row of the hardware-preset constants table (`TMCRegisterConstant`). -/
structure TMCRegisterConstant where
  address : Nat
  value : Nat
deriving DecidableEq

/-- Table `tmc4361A_RegisterConstants`, transcribed from the header: documented
hardware-preset values for the 0x42-class (write-only, preset) registers. -/
def tmc4361A_RegisterConstants : List TMCRegisterConstant :=
  [⟨0x53, 0xFFFFFFFF⟩, -- ENC_POS_DEV_TOL
   ⟨0x56, 0x00A000A0⟩, -- SER_CLK_IN_HIGH, SER_CLK_IN_LOW
   ⟨0x57, 0x00F00000⟩, -- SSI_IN_CLK_DELAY, SSI_IN_WTIME
   ⟨0x58, 0x00000190⟩, -- SER_PTIME
   ⟨0x62, 0x00FFFFFF⟩, -- ENC_VEL_ZERO
   ⟨0x70, 0xAAAAB554⟩, -- MSLUT 0
   ⟨0x71, 0x4A9554AA⟩, -- MSLUT 1
   ⟨0x72, 0x24492929⟩, -- MSLUT 2
   ⟨0x73, 0x10104222⟩, -- MSLUT 3
   ⟨0x74, 0xFBFFFFFF⟩, -- MSLUT 4
   ⟨0x75, 0xB5BB777D⟩, -- MSLUT 5
   ⟨0x76, 0x49295556⟩, -- MSLUT 6
   ⟨0x77, 0x00404222⟩, -- MSLUT 7
   ⟨0x78, 0xFFFF8056⟩, -- MSLUTSEL
   ⟨0x7E, 0x00F70000⟩] -- START_SIN, START_SIN_90_120, DAC_OFFSET

/-- Access-class byte of address `a` in the default access table. -/
def accessAt (a : Nat) : Nat := tmc4361A_defaultRegisterAccess.getD a 0

/-- Default reset-state entry of address `a` (`none` is the N_A sentinel). -/
def resetStateAt (a : Nat) : Option Int :=
  tmc4361A_defaultRegisterResetState.getD a none

/-- Whether the access class of `a` has the hardware-preset bit 0x40 set. -/
def hwPreset (a : Nat) : Bool := accessAt a &&& 0x40 != 0

/-- The addresses of the constants table, in table order. -/
def constantAddresses : List Nat :=
  tmc4361A_RegisterConstants.map (fun c => c.address)

/-- Whether a list of addresses is in strictly ascending order. -/
def strictAscending : List Nat → Bool
  | [] => true
  | [_] => true
  | a :: b :: rest => a < b && strictAscending (b :: rest)

/-- C10: the three default static tables are mutually consistent.  Every
address whose access class carries the hardware-preset bit 0x40 has the N_A
sentinel in the default reset-state table; and the constants table lists
exactly the addresses of class 0x42 (write-only with hardware preset), one
entry each, in strictly ascending order. -/
theorem default_tables_consistent :
    ((List.range TMC4361A_REGISTER_COUNT).all
      (fun a => !(hwPreset a) || (resetStateAt a == none)) = true)
    ∧ constantAddresses =
        (List.range TMC4361A_REGISTER_COUNT).filter (fun a => accessAt a == 0x42)
    ∧ strictAscending constantAddresses = true := by
  refine ⟨by decide, by decide, by decide⟩

/-! ## Datagram codec -/

/-- Modelled from the spec: `tmc4361A_writeDatagram`'s packing (the
implementation file is not in this tree).  Encodes a direction flag, a
register address and a 32-bit value into the fixed 5-byte wire datagram:
one command byte whose bit 7 is the read/write direction and whose bits 6-0
are the register address, followed by the four value bytes, big-endian. -/
def encodeDatagram (isWrite : Bool) (address : Nat) (value : Nat) : List Nat :=
  [(if isWrite then 128 else 0) ||| (address &&& 127),
   value / 16777216 % 256,
   value / 65536 % 256,
   value / 256 % 256,
   value % 256]

/-- A decoded datagram: the leading byte (the status byte of a response, or
the command byte of a request) and the 32-bit value. -/
structure DecodedDatagram where
  head : Nat
  value : Nat
deriving DecidableEq

/-- Modelled from the spec: decoding a received 5-byte datagram back into a
leading byte and a big-endian 32-bit value; any other length is rejected. -/
def decodeDatagram : List Nat → Option DecodedDatagram
  | [s, b3, b2, b1, b0] => some ⟨s, b3 * 16777216 + b2 * 65536 + b1 * 256 + b0⟩
  | _ => none

/-- C1: for every valid register address (0-127) and 32-bit value, decoding
the 5-byte datagram produced by encoding recovers exactly the value; the
datagram is 5 bytes, bit 7 of the command byte is the direction and bits 6-0
are the address.  Both sides are pure functions of their arguments. -/
theorem datagram_roundtrip (isWrite : Bool) (a v : Nat)
    (ha : a < 128) (hv : v < 4294967296) :
    (decodeDatagram (encodeDatagram isWrite a v)).map (fun d => d.value) = some v
    ∧ (encodeDatagram isWrite a v).length = 5
    ∧ ((encodeDatagram isWrite a v).headD 0) &&& 127 = a
    ∧ ((encodeDatagram isWrite a v).headD 0).testBit 7 = isWrite := by
  have hcmd : ∀ b < 128, ((if isWrite then 128 else 0) ||| (b &&& 127)) &&& 127 = b
      ∧ ((if isWrite then 128 else 0) ||| (b &&& 127)).testBit 7 = isWrite := by
    cases isWrite <;> decide
  refine ⟨?_, rfl, (hcmd a ha).1, (hcmd a ha).2⟩
  show some (v / 16777216 % 256 * 16777216 + v / 65536 % 256 * 65536
      + v / 256 % 256 * 256 + v % 256) = some v
  exact congrArg some (by omega)

/-- Concrete witness for the datagram round trip at address 0x37,
value 0xDEADBEEF. -/
theorem datagram_roundtrip_witness :
    (decodeDatagram (encodeDatagram true 0x37 0xDEADBEEF)).map
        (fun d => d.value) = some 0xDEADBEEF
    ∧ (encodeDatagram true 0x37 0xDEADBEEF).length = 5
    ∧ ((encodeDatagram true 0x37 0xDEADBEEF).headD 0) &&& 127 = 0x37
    ∧ ((encodeDatagram true 0x37 0xDEADBEEF).headD 0).testBit 7 = true :=
  datagram_roundtrip true 0x37 0xDEADBEEF (by decide) (by decide)

/-! ## Register access dispatcher -/

/-- Error taxonomy of the driver (spec section 7).  `WriteToReadOnly` models
the rejection of a hardware write to a read-only address, which the spec
requires but does not name. -/
inductive DriverError where
  | OutOfRange
  | OutOfBounds
  | DeviceFault
  | CalibrationTimeout
  | CalibrationMismatch
  | WriteToReadOnly
deriving DecidableEq

/-- A bus transaction issued to the hardware over the serial channel. -/
inductive BusTxn where
  | hwRead (address : Nat)
  | hwWrite (address : Nat) (value : Int)
deriving DecidableEq

/-- Device instance state (`TMC4361ATypeDef` plus the live hardware register
file `hw`, which stands for the environment the bus talks to, and the
per-address flag `writtenSinceReset` used by the hardware-preset read rule). -/
structure Device where
  shadow : Nat → Int
  registerAccess : Nat → Nat
  registerResetState : Nat → Option Int
  hw : Nat → Int
  writtenSinceReset : Nat → Bool
  xmin : Int
  xmax : Int
  xhome : Int
  rampParam : Nat → Int
  velocity_mode : Bool
  closedLoopEnabled : Bool

/-- Modelled from the spec: `tmc4361A_readInt` (the implementation file is
not in this tree).  Addresses outside 0-127 are rejected at the API boundary.
A class without the read bit 0x01 is answered from the shadow store with no
bus transaction; a hardware-preset class (bit 0x40) not yet explicitly
written since reset is answered from the shadow, which holds the documented
reset constant; otherwise a live hardware read is issued and the shadow
updated.  Returns the value, the new device state and the bus transactions
issued. -/
def readInt (dev : Device) (address : Nat) :
    Except DriverError (Int × Device × List BusTxn) :=
  if 128 ≤ address then .error .OutOfRange
  else if dev.registerAccess address &&& 1 = 0 then
    .ok (dev.shadow address, dev, [])
  else if dev.registerAccess address &&& 64 ≠ 0 ∧ dev.writtenSinceReset address = false then
    .ok (dev.shadow address, dev, [])
  else
    .ok (dev.hw address,
         { dev with shadow := Function.update dev.shadow address (dev.hw address) },
         [.hwRead address])

/-- Modelled from the spec: `tmc4361A_writeInt`.  Addresses outside 0-127 are
rejected at the API boundary; a write to a class without the write bit 0x02
is rejected; otherwise the hardware write is issued and the shadow updated. -/
def writeInt (dev : Device) (address : Nat) (value : Int) :
    Except DriverError (Device × List BusTxn) :=
  if 128 ≤ address then .error .OutOfRange
  else if dev.registerAccess address &&& 2 = 0 then .error .WriteToReadOnly
  else
    .ok ({ dev with
            shadow := Function.update dev.shadow address value
            hw := Function.update dev.hw address value
            writtenSinceReset := Function.update dev.writtenSinceReset address true },
         [.hwWrite address value])

/-- Documented constant for address `a` in the static constants table. -/
def constantsLookup (a : Nat) : Option Nat :=
  (tmc4361A_RegisterConstants.find? (fun c => c.address == a)).map (fun c => c.value)

/-- The documented reset constant of an address: the constants-table entry
when one exists, otherwise the device's register-reset-state entry. -/
def documentedResetConstant (dev : Device) (a : Nat) : Option Int :=
  match constantsLookup a with
  | some v => some (Int.ofNat v)
  | none => dev.registerResetState a

/-- Shadow contents re-asserted on a detected reset: for a hardware-preset
class the documented reset constant (when one exists) replaces the shadow
value; other addresses keep their shadow value. -/
def resetShadow (dev : Device) (a : Nat) : Int :=
  if dev.registerAccess a &&& 64 ≠ 0 then
    match documentedResetConstant dev a with
    | some c => c
    | none => dev.shadow a
  else dev.shadow a

/-- Modelled from the spec: on detecting a device reset the dispatcher
re-asserts the known constants into the shadow and marks every address as
not yet explicitly written. -/
def applyReset (dev : Device) : Device :=
  { dev with
      writtenSinceReset := fun _ => false
      shadow := fun a => resetShadow dev a }

/-- Run a list of explicit writes (address, value), ignoring rejected ones. -/
def runWrites (dev : Device) : List (Nat × Int) → Device
  | [] => dev
  | (a, v) :: rest =>
    match writeInt dev a v with
    | .ok (d, _) => runWrites d rest
    | .error _ => runWrites dev rest

/-- A device instance over the default tables, with both shadow and hardware
register files all-zero, used as the concrete device of the witnesses. -/
def defaultDevice : Device :=
  { shadow := fun _ => 0
    registerAccess := accessAt
    registerResetState := resetStateAt
    hw := fun _ => 0
    writtenSinceReset := fun _ => false
    xmin := 0
    xmax := 100000
    xhome := 0
    rampParam := fun _ => 0
    velocity_mode := false
    closedLoopEnabled := false }

/-- A successful write to address `b` leaves every other address's shadow and
written-since-reset flag, and the whole access table, unchanged. -/
theorem writeInt_preserves (dev : Device) (b : Nat) (v : Int) (a : Nat)
    (hab : b ≠ a) :
    ∀ d t, writeInt dev b v = .ok (d, t) →
      d.shadow a = dev.shadow a
      ∧ d.writtenSinceReset a = dev.writtenSinceReset a
      ∧ d.registerAccess = dev.registerAccess := by
  intro d t h
  unfold writeInt at h
  split at h
  · exact absurd h (by simp)
  split at h
  · exact absurd h (by simp)
  simp only [Except.ok.injEq, Prod.mk.injEq] at h
  obtain ⟨h1, -⟩ := h
  subst h1
  have hba : a ≠ b := Ne.symm hab
  refine ⟨?_, ?_, rfl⟩
  · simp [Function.update, hba]
  · simp [Function.update, hba]

/-- Running any sequence of writes that never touches address `a` leaves
`a`'s shadow and written-since-reset flag, and the access table, unchanged. -/
theorem runWrites_preserves (a : Nat) :
    ∀ (ops : List (Nat × Int)) (dev : Device), (∀ p ∈ ops, p.1 ≠ a) →
      (runWrites dev ops).shadow a = dev.shadow a
      ∧ (runWrites dev ops).writtenSinceReset a = dev.writtenSinceReset a
      ∧ (runWrites dev ops).registerAccess = dev.registerAccess := by
  intro ops
  induction ops with
  | nil => exact fun dev _ => ⟨rfl, rfl, rfl⟩
  | cons p rest ih =>
    intro dev h
    obtain ⟨b, v⟩ := p
    have hb : b ≠ a := h (b, v) (List.mem_cons_self _ _)
    have hrest : ∀ q ∈ rest, q.1 ≠ a := fun q hq => h q (List.mem_cons_of_mem _ hq)
    simp only [runWrites]
    rcases hw : writeInt dev b v with e | ⟨d, t⟩
    · exact ih dev hrest
    · obtain ⟨p1, p2, p3⟩ := writeInt_preserves dev b v a hb d t hw
      obtain ⟨q1, q2, q3⟩ := ih d hrest
      exact ⟨q1.trans p1, q2.trans p2, q3.trans p3⟩

/-- C2: for a write-only address (write bit set, read bit clear),
`write(addr, v)` issues exactly the hardware write and updates the shadow,
and a subsequent `read` returns `v` from the shadow store with no bus
transaction. -/
theorem write_only_shadow_read (dev : Device) (a : Nat) (v : Int)
    (ha : a < 128)
    (hr : dev.registerAccess a &&& 1 = 0)
    (hw : dev.registerAccess a &&& 2 ≠ 0) :
    ∃ d, writeInt dev a v = .ok (d, [.hwWrite a v])
      ∧ d.shadow a = v
      ∧ readInt d a = .ok (v, d, []) := by
  have h128 : ¬ 128 ≤ a := by omega
  refine ⟨{ dev with
              shadow := Function.update dev.shadow a v
              hw := Function.update dev.hw a v
              writtenSinceReset := Function.update dev.writtenSinceReset a true },
          ?_, ?_, ?_⟩
  · unfold writeInt
    rw [if_neg h128, if_neg hw]
  · simp [Function.update]
  · unfold readInt
    rw [if_neg h128, if_pos hr]
    simp [Function.update]

/-- Concrete witness for C2 at the write-only address 0x55 (class 0x02). -/
theorem write_only_shadow_read_witness :
    ∃ d, writeInt defaultDevice 0x55 42 = .ok (d, [.hwWrite 0x55 42])
      ∧ d.shadow 0x55 = 42
      ∧ readInt d 0x55 = .ok (42, d, []) :=
  write_only_shadow_read defaultDevice 0x55 42 (by decide) (by decide) (by decide)

/-- C3: for a hardware-preset address whose documented reset constant is `c`,
after a detected reset and before any explicit write to that address (any
sequence of writes to other addresses may intervene), a read returns exactly
`c`, answered from the shadow with no live hardware transaction. -/
theorem preset_read_after_reset (dev : Device) (a : Nat) (c : Int)
    (ops : List (Nat × Int))
    (ha : a < 128)
    (hp : dev.registerAccess a &&& 64 ≠ 0)
    (hc : documentedResetConstant dev a = some c)
    (hops : ∀ p ∈ ops, p.1 ≠ a) :
    ∃ d, readInt (runWrites (applyReset dev) ops) a = .ok (c, d, []) := by
  have h128 : ¬ 128 ≤ a := by omega
  obtain ⟨h1, h2, h3⟩ := runWrites_preserves a ops (applyReset dev) hops
  have hsh : (runWrites (applyReset dev) ops).shadow a = c := by
    rw [h1]
    show resetShadow dev a = c
    unfold resetShadow
    rw [if_pos hp, hc]
  have hwr : (runWrites (applyReset dev) ops).writtenSinceReset a = false := h2
  have hacc : (runWrites (applyReset dev) ops).registerAccess a = dev.registerAccess a := by
    rw [h3]; rfl
  refine ⟨runWrites (applyReset dev) ops, ?_⟩
  unfold readInt
  rw [if_neg h128]
  by_cases hb1 : (runWrites (applyReset dev) ops).registerAccess a &&& 1 = 0
  · rw [if_pos hb1, hsh]
  · rw [if_neg hb1, if_pos ⟨by rw [hacc]; exact hp, hwr⟩, hsh]

/-- Concrete witness for C3 at address 0x53 (class 0x42), whose documented
constant is 0xFFFFFFFF, with an intervening write to address 0x24. -/
theorem preset_read_after_reset_witness :
    ∃ d, readInt (runWrites (applyReset defaultDevice) [(0x24, 7)]) 0x53
      = .ok (0xFFFFFFFF, d, []) :=
  preset_read_after_reset defaultDevice 0x53 0xFFFFFFFF [(0x24, 7)]
    (by decide) (by decide) (by decide) (by decide)

/-- C7: a read or write on an address outside 0-127 is rejected at the API
boundary with `OutOfRange`: no bus transaction is issued, no state changes,
and the address is never clamped or aliased into the valid range. -/
theorem invalid_address_rejected (dev : Device) (a : Nat) (v : Int)
    (ha : 128 ≤ a) :
    readInt dev a = .error .OutOfRange ∧ writeInt dev a v = .error .OutOfRange := by
  constructor
  · unfold readInt; rw [if_pos ha]
  · unfold writeInt; rw [if_pos ha]

/-- Concrete witness for C7 at address 200. -/
theorem invalid_address_rejected_witness :
    readInt defaultDevice 200 = .error .OutOfRange
    ∧ writeInt defaultDevice 200 7 = .error .OutOfRange :=
  invalid_address_rejected defaultDevice 200 7 (by decide)

/-! ## Motion command layer -/

/-- Modelled from the spec: target-velocity register address `TMC4361A_VMAX`
(TMC4361A_Register.h is not in this tree). -/
def TMC4361A_VMAX : Nat := 0x24

/-- Modelled from the spec: target-position register address
`TMC4361A_X_TARGET` (TMC4361A_Register.h is not in this tree). -/
def TMC4361A_X_TARGET : Nat := 0x37

/-- Modelled from the spec: the device's maximum encodable velocity
`TMC4361A_MAX_VELOCITY` (TMC4361A_Constants.h is not in this tree). -/
def TMC4361A_MAX_VELOCITY : Int := 0x7FFFFF00

/-- Index of the cached maximum velocity in `rampParam` (`VMAX_IDX`). -/
def VMAX_IDX : Nat := 8

/-- Modelled from the spec: `tmc4361A_discardVelocityDecimals` truncates the
fractional (low 8) bits of the fixed-point velocity encoding, truncating
toward zero as C integer division does. -/
def tmc4361A_discardVelocityDecimals (value : Int) : Int :=
  (Int.tdiv value 256) * 256

/-- Binding `Except.bind` on a success reduces to the continuation. -/
theorem except_bind_ok {α β γ : Type} (a : α) (f : α → Except γ β) :
    Except.bind (Except.ok a) f = f a := rfl

/-- A write to a valid, writable address succeeds with exactly one hardware
write transaction, and the resulting state is the shadow/hardware update. -/
theorem writeInt_eq_ok (dev : Device) (a : Nat) (v : Int)
    (ha : a < 128) (hw : dev.registerAccess a &&& 2 ≠ 0) :
    writeInt dev a v = .ok
      ({ dev with
          shadow := Function.update dev.shadow a v
          hw := Function.update dev.hw a v
          writtenSinceReset := Function.update dev.writtenSinceReset a true },
       [.hwWrite a v]) := by
  unfold writeInt
  rw [if_neg (by omega), if_neg hw]

/-- Modelled from the spec: `tmc4361A_rotate` validates the velocity
magnitude against the maximum encodable velocity, failing with `OutOfRange`
before any bus transaction, then sets the velocity-mode flag and writes the
signed target velocity register. -/
def rotate (dev : Device) (velocity : Int) :
    Except DriverError (Device × List BusTxn) :=
  if TMC4361A_MAX_VELOCITY < |velocity| then .error .OutOfRange
  else writeInt { dev with velocity_mode := true } TMC4361A_VMAX velocity

/-- Modelled from the spec: `tmc4361A_stop` writes zero target velocity and
clears the velocity-mode flag. -/
def stop (dev : Device) : Except DriverError (Device × List BusTxn) :=
  writeInt { dev with velocity_mode := false } TMC4361A_VMAX 0

/-- A write to a valid, writable address succeeds with exactly one hardware
write transaction; the shadow is updated at that address and the remaining
driver state is untouched. -/
theorem writeInt_ok_spec (dev : Device) (a : Nat) (v : Int)
    (ha : a < 128) (hw : dev.registerAccess a &&& 2 ≠ 0) :
    ∃ d, writeInt dev a v = .ok (d, [.hwWrite a v])
      ∧ d.shadow = Function.update dev.shadow a v
      ∧ d.velocity_mode = dev.velocity_mode
      ∧ d.registerAccess = dev.registerAccess
      ∧ d.rampParam = dev.rampParam := by
  exact ⟨_, writeInt_eq_ok dev a v ha hw, rfl, rfl, rfl, rfl⟩

/-- Modelled from the spec: `tmc4361A_moveTo` validates the target against
the soft travel limits (failing with `OutOfBounds` before any register
write), clears the velocity-mode flag, refreshes the cached `rampParam`
maximum velocity, and writes the target position and target velocity
registers. -/
def moveTo (dev : Device) (position : Int) (velocityMax : Int) :
    Except DriverError (Device × List BusTxn) :=
  if position < dev.xmin ∨ dev.xmax < position then .error .OutOfBounds
  else
    (writeInt { dev with velocity_mode := false } TMC4361A_X_TARGET position).bind
      (fun r1 => (writeInt
          { r1.1 with rampParam := Function.update r1.1.rampParam VMAX_IDX velocityMax }
          TMC4361A_VMAX velocityMax).bind
        (fun r2 => .ok (r2.1, r1.2 ++ r2.2)))

/-- C4: with homing completed, `moveTo` on a target outside
`[xmin, xmax]` fails with `OutOfBounds` and issues zero register writes
(the state is unchanged); on an in-range target it succeeds, clears the
velocity-mode flag and writes exactly the target position and target
velocity registers. -/
theorem moveTo_spec (dev : Device) (p vmax : Int)
    (_hhome : dev.xmin ≤ dev.xhome ∧ dev.xhome ≤ dev.xmax)
    (hx : dev.registerAccess TMC4361A_X_TARGET &&& 2 ≠ 0)
    (hv : dev.registerAccess TMC4361A_VMAX &&& 2 ≠ 0) :
    ((p < dev.xmin ∨ dev.xmax < p) → moveTo dev p vmax = .error .OutOfBounds)
    ∧ (dev.xmin ≤ p → p ≤ dev.xmax →
        ∃ d t, moveTo dev p vmax = .ok (d, t)
          ∧ d.velocity_mode = false
          ∧ d.shadow TMC4361A_X_TARGET = p
          ∧ d.shadow TMC4361A_VMAX = vmax
          ∧ t = [.hwWrite TMC4361A_X_TARGET p, .hwWrite TMC4361A_VMAX vmax]) := by
  constructor
  · intro hout
    unfold moveTo
    rw [if_pos hout]
  · intro hmin hmax
    have hor : ¬ (p < dev.xmin ∨ dev.xmax < p) := by omega
    obtain ⟨d1, hw1, hsh1, hvm1, hacc1, -⟩ :=
      writeInt_ok_spec { dev with velocity_mode := false } TMC4361A_X_TARGET p
        (by decide) hx
    obtain ⟨d2, hw2, hsh2, hvm2, -, -⟩ :=
      writeInt_ok_spec
        { d1 with rampParam := Function.update d1.rampParam VMAX_IDX vmax }
        TMC4361A_VMAX vmax (by decide) (by show d1.registerAccess _ &&& 2 ≠ 0; rw [hacc1]; exact hv)
    refine ⟨d2, _, ?_, ?_, ?_, ?_, rfl⟩
    · unfold moveTo
      rw [if_neg hor]
      simp only [hw1, except_bind_ok, hw2]
      rfl
    · rw [hvm2]
      show d1.velocity_mode = false
      rw [hvm1]
    · rw [hsh2]
      show Function.update d1.shadow TMC4361A_VMAX vmax TMC4361A_X_TARGET = p
      rw [Function.update]
      simp only [TMC4361A_VMAX, TMC4361A_X_TARGET]
      norm_num
      rw [hsh1]
      simp [Function.update, TMC4361A_X_TARGET]
    · rw [hsh2]
      simp [Function.update]

/-- Concrete witness for C4 on the default device (`xmin = 0`,
`xmax = 100000`): target 200000 is rejected, target 10000 succeeds. -/
theorem moveTo_spec_witness :
    (((200000:Int) < defaultDevice.xmin ∨ defaultDevice.xmax < 200000) →
        moveTo defaultDevice 200000 50000 = .error .OutOfBounds)
    ∧ (defaultDevice.xmin ≤ (200000:Int) → (200000:Int) ≤ defaultDevice.xmax →
        ∃ d t, moveTo defaultDevice 200000 50000 = .ok (d, t)
          ∧ d.velocity_mode = false
          ∧ d.shadow TMC4361A_X_TARGET = 200000
          ∧ d.shadow TMC4361A_VMAX = 50000
          ∧ t = [.hwWrite TMC4361A_X_TARGET 200000, .hwWrite TMC4361A_VMAX 50000]) :=
  moveTo_spec defaultDevice 200000 50000 (by constructor <;> decide)
    (by decide) (by decide)

/-- C5: a rotate whose velocity magnitude exceeds the maximum encodable
velocity fails with `OutOfRange` and issues zero register writes — the
magnitude is never truncated or clamped into range. -/
theorem rotate_out_of_range (dev : Device) (v : Int)
    (h : TMC4361A_MAX_VELOCITY < |v|) :
    rotate dev v = .error .OutOfRange := by
  unfold rotate
  rw [if_pos h]

/-- Concrete witness for C5 at velocity `TMC4361A_MAX_VELOCITY + 1`. -/
theorem rotate_out_of_range_witness :
    rotate defaultDevice 2147483393 = .error .OutOfRange :=
  rotate_out_of_range defaultDevice 2147483393 (by decide)

/-- After a successful `stop` the target-velocity shadow is zero and the
velocity-mode flag is cleared. -/
theorem stop_ok (dev : Device)
    (hv : dev.registerAccess TMC4361A_VMAX &&& 2 ≠ 0) :
    ∃ d t, stop dev = .ok (d, t)
      ∧ d.shadow TMC4361A_VMAX = 0 ∧ d.velocity_mode = false := by
  obtain ⟨d, hwr, hsh, hvm, -, -⟩ :=
    writeInt_ok_spec { dev with velocity_mode := false } TMC4361A_VMAX 0 (by decide) hv
  exact ⟨d, _, (by unfold stop; exact hwr), (by rw [hsh]; simp [Function.update]), hvm⟩

/-- A successful write leaves the access table unchanged. -/
theorem writeInt_ok_registerAccess (dev : Device) (a : Nat) (v : Int) :
    ∀ d t, writeInt dev a v = .ok (d, t) →
      d.registerAccess = dev.registerAccess := by
  intro d t h
  unfold writeInt at h
  split at h
  · exact absurd h (by simp)
  split at h
  · exact absurd h (by simp)
  simp only [Except.ok.injEq, Prod.mk.injEq] at h
  obtain ⟨h1, -⟩ := h
  subst h1
  rfl

/-- C8: `stop` writes zero target velocity and clears the velocity-mode
flag, in particular after `rotate(device, -30000)`. -/
theorem stop_spec (dev : Device)
    (hv : dev.registerAccess TMC4361A_VMAX &&& 2 ≠ 0) :
    (∃ d t, stop dev = .ok (d, t)
      ∧ d.shadow TMC4361A_VMAX = 0 ∧ d.velocity_mode = false)
    ∧ ∀ d1 t1, rotate dev (-30000) = .ok (d1, t1) →
        ∃ d t, stop d1 = .ok (d, t)
          ∧ d.shadow TMC4361A_VMAX = 0 ∧ d.velocity_mode = false := by
  refine ⟨stop_ok dev hv, ?_⟩
  intro d1 t1 h
  unfold rotate at h
  split at h
  · exact absurd h (by simp)
  have hacc := writeInt_ok_registerAccess _ _ _ _ _ h
  exact stop_ok d1 (by rw [hacc]; exact hv)

/-- Concrete witness for C8: `rotate(defaultDevice, -30000)` then `stop`. -/
theorem stop_spec_witness :
    (∃ d t, stop defaultDevice = .ok (d, t)
      ∧ d.shadow TMC4361A_VMAX = 0 ∧ d.velocity_mode = false)
    ∧ ∀ d1 t1, rotate defaultDevice (-30000) = .ok (d1, t1) →
        ∃ d t, stop d1 = .ok (d, t)
          ∧ d.shadow TMC4361A_VMAX = 0 ∧ d.velocity_mode = false :=
  stop_spec defaultDevice (by decide)

/-! ## Field-level helpers -/

/-- Two's-complement 32-bit pattern of an int32-valued register word. -/
def toBits32 (v : Int) : Nat := (v % 4294967296).toNat

/-- Signed int32 value of a 32-bit pattern. -/
def ofBits32 (n : Nat) : Int :=
  if n < 2147483648 then (n : Int) else (n : Int) - 4294967296

/-- Modelled from the spec: `FIELD_SET` of tmc/helpers/API_Header.h (not in
this tree): merge `value <<< shift` into `data` under `mask`, leaving the
bits outside the mask as they are, in 32-bit unsigned arithmetic. -/
def FIELD_SET (data mask shift value : Nat) : Nat :=
  (data &&& (mask ^^^ 4294967295)) ||| ((value <<< shift) &&& mask)

/-- Macro `TMC4361A_FIELD_WRITE` from the header: a read-modify-write through the
dispatcher — read the register word, merge the field into it, write the
merged word back. -/
def TMC4361A_FIELD_WRITE (dev : Device) (address mask shift value : Nat) :
    Except DriverError (Device × List BusTxn) :=
  (readInt dev address).bind (fun r =>
    (writeInt r.2.1 address
        (ofBits32 (FIELD_SET (toBits32 r.1) mask shift value))).bind
      (fun w => .ok (w.1, r.2.2 ++ w.2)))

/-- The bit pattern of a register word is below 2^32. -/
theorem toBits32_lt (v : Int) : toBits32 v < 4294967296 := by
  unfold toBits32
  omega

/-- A pattern below 2^32 survives the signed/unsigned round trip. -/
theorem toBits32_ofBits32 (n : Nat) (h : n < 4294967296) :
    toBits32 (ofBits32 n) = n := by
  unfold toBits32 ofBits32
  split <;> omega

/-- The merged word stays below 2^32. -/
theorem FIELD_SET_lt (data mask shift value : Nat)
    (hd : data < 4294967296) (hm : mask < 4294967296) :
    FIELD_SET data mask shift value < 4294967296 := by
  unfold FIELD_SET
  have e : (4294967296 : Nat) = 2 ^ 32 := by norm_num
  have h1 : data &&& (mask ^^^ 4294967295) < 2 ^ 32 :=
    Nat.lt_of_le_of_lt Nat.and_le_left (e ▸ hd)
  have h2 : (value <<< shift) &&& mask < 2 ^ 32 :=
    Nat.lt_of_le_of_lt Nat.and_le_right (e ▸ hm)
  exact e ▸ Nat.or_lt_two_pow h1 h2

/-- Merging under a mask leaves every bit outside the mask unchanged. -/
theorem FIELD_SET_frame (data mask shift value i : Nat) (hi : i < 32)
    (hbit : mask.testBit i = false) :
    (FIELD_SET data mask shift value).testBit i = data.testBit i := by
  unfold FIELD_SET
  have ht : Nat.testBit 4294967295 i = true := by
    have e : (4294967295 : Nat) = 2 ^ 32 - 1 := by norm_num
    rw [e, Nat.testBit_two_pow_sub_one]
    simpa using hi
  simp [Nat.testBit_or, Nat.testBit_and, Nat.testBit_xor, hbit, ht]

/-- A read of a valid address always succeeds and leaves the access table
unchanged. -/
theorem readInt_ok (dev : Device) (a : Nat) (ha : a < 128) :
    ∃ r d1 t1, readInt dev a = .ok (r, d1, t1)
      ∧ d1.registerAccess = dev.registerAccess := by
  unfold readInt
  rw [if_neg (by omega)]
  by_cases h1 : dev.registerAccess a &&& 1 = 0
  · rw [if_pos h1]
    exact ⟨_, _, _, rfl, rfl⟩
  · rw [if_neg h1]
    by_cases h2 : dev.registerAccess a &&& 64 ≠ 0 ∧ dev.writtenSinceReset a = false
    · rw [if_pos h2]
      exact ⟨_, _, _, rfl, rfl⟩
    · rw [if_neg h2]
      exact ⟨_, _, _, rfl, rfl⟩

/-- C6: the field-level write helper is a read-modify-write that changes only
the bits selected by the mask: every bit of the written register word outside
the mask equals the corresponding bit of the value read before the write. -/
theorem field_write_frame (dev : Device) (a mask shift value : Nat)
    (ha : a < 128) (hm : mask < 4294967296)
    (hw : dev.registerAccess a &&& 2 ≠ 0) :
    ∃ r d1 t1 d t, readInt dev a = .ok (r, d1, t1)
      ∧ TMC4361A_FIELD_WRITE dev a mask shift value = .ok (d, t)
      ∧ d.shadow a = ofBits32 (FIELD_SET (toBits32 r) mask shift value)
      ∧ ∀ i, i < 32 → mask.testBit i = false →
          (toBits32 (d.shadow a)).testBit i = (toBits32 r).testBit i := by
  obtain ⟨r, d1, t1, hr, hacc⟩ := readInt_ok dev a ha
  obtain ⟨d, hwr, hsh, -, -, -⟩ :=
    writeInt_ok_spec d1 a (ofBits32 (FIELD_SET (toBits32 r) mask shift value))
      ha (by rw [hacc]; exact hw)
  refine ⟨r, d1, t1, d,
    t1 ++ [.hwWrite a (ofBits32 (FIELD_SET (toBits32 r) mask shift value))],
    hr, ?_, ?_, ?_⟩
  · unfold TMC4361A_FIELD_WRITE
    simp only [hr, except_bind_ok, hwr]
  · rw [hsh, Function.update_same]
  · intro i hi hbit
    rw [hsh, Function.update_same]
    rw [toBits32_ofBits32 _ (FIELD_SET_lt _ _ _ _ (toBits32_lt r) hm)]
    exact FIELD_SET_frame (toBits32 r) mask shift value i hi hbit

/-- Concrete witness for C6 at the readable/writable address 0x21 with mask
0xFF00 and shift 8. -/
theorem field_write_frame_witness :
    ∃ r d1 t1 d t, readInt defaultDevice 0x21 = .ok (r, d1, t1)
      ∧ TMC4361A_FIELD_WRITE defaultDevice 0x21 0xFF00 8 0xAB = .ok (d, t)
      ∧ d.shadow 0x21 = ofBits32 (FIELD_SET (toBits32 r) 0xFF00 8 0xAB)
      ∧ ∀ i, i < 32 → Nat.testBit 0xFF00 i = false →
          (toBits32 (d.shadow 0x21)).testBit i = (toBits32 r).testBit i :=
  field_write_frame defaultDevice 0x21 0xFF00 8 0xAB
    (by decide) (by decide) (by decide)

/-! ## Closed-loop calibration -/

/-- Role in the closed-loop calibration handshake. -/
inductive CalRole where
  | worker
  | master
deriving DecidableEq

/-- Environment observed during calibration: per-tick master readiness as
seen by the worker, the latched encoder positions of both axes, and the
alignment tolerance band. -/
structure CalEnv where
  masterReady : Nat → Bool
  masterEncoder : Int
  workerEncoder : Int
  tolerance : Int

/-- Modelled from the spec: `tmc4361A_calibrateClosedLoop`.  The master phase
latches its reference and signals readiness.  The worker phase polls for
master readiness within the caller-supplied tick budget; if readiness is
never observed it fails with `CalibrationTimeout`, if the encoder values
disagree beyond the tolerance band it fails with `CalibrationMismatch`, and
only on full success does it enable closed-loop mode.  A failing call
returns no device state: the worker device is left as it was. -/
def calibrateClosedLoop (dev : Device) (role : CalRole) (env : CalEnv)
    (tickBudget : Nat) : Except DriverError Device :=
  match role with
  | .master => .ok dev
  | .worker =>
    match (List.range tickBudget).find? env.masterReady with
    | none => .error .CalibrationTimeout
    | some _ =>
      if env.tolerance < |env.workerEncoder - env.masterEncoder| then
        .error .CalibrationMismatch
      else .ok { dev with closedLoopEnabled := true }

/-- C9: a worker-role calibration that never observes master readiness
within the tick budget fails with `CalibrationTimeout`; the failing call
yields no device state, so closed-loop mode remains disabled on the worker
device it was called on. -/
theorem calibration_timeout (dev : Device) (env : CalEnv) (tickBudget : Nat)
    (hd : dev.closedLoopEnabled = false)
    (h : ∀ t, t < tickBudget → env.masterReady t = false) :
    calibrateClosedLoop dev .worker env tickBudget = .error .CalibrationTimeout
    ∧ dev.closedLoopEnabled = false := by
  have hfind : (List.range tickBudget).find? env.masterReady = none := by
    rw [List.find?_eq_none]
    intro x hx
    rw [h x (List.mem_range.mp hx)]
    exact fun hc => nomatch hc
  refine ⟨?_, hd⟩
  unfold calibrateClosedLoop
  rw [hfind]

/-- The environment of the C9 witness: the master never becomes ready. -/
def timeoutEnv : CalEnv :=
  { masterReady := fun _ => false
    masterEncoder := 0
    workerEncoder := 0
    tolerance := 0 }

/-- Concrete witness for C9 with a tick budget of 5. -/
theorem calibration_timeout_witness :
    calibrateClosedLoop defaultDevice .worker timeoutEnv 5
      = .error .CalibrationTimeout
    ∧ defaultDevice.closedLoopEnabled = false :=
  calibration_timeout defaultDevice timeoutEnv 5 (by decide) (fun t _ => rfl)

end TMC4361A
